import Mathlib

/-!
Verification of the authorization caching decorator of the Toolbox repository
(`src/utils/fastapi/decorators.py`).

The decorator `with_authorization(auth_check)` wraps an async handler
(`authorization(func, instance, args, kwargs)`).  Its behaviour:

* `if not int(os.environ.get('AUTH_ENABLED', 1)): return await func(*args, **kwargs)`
* `access_token = kwargs.get('access_token', '')`; a falsy token forbids access
  and returns `None`.
* a module-level `TTLCache(sys.maxsize, ttl=1200)` is consulted:
  `try: response = __cache[access_token]; return await next(response)
   except KeyError: pass` — note the `except KeyError` also catches a
  `KeyError` raised inside `next` (i.e. by `auth_check`).
* on a miss, an HTTP GET to `os.environ['AUTH_ENDPOINT']` is issued with the
  token as `Authorization` header, the raw response is stored in the cache,
  and `next(response)` is evaluated.
* `next(response)`: if `auth_check(response)` then the wrapped `func` is
  awaited with the original `args`/`kwargs` and its value returned, else
  `__forbid_access(kwargs)` is called and `None` is returned.
* `__forbid_access(kwargs)`: `resp = kwargs.get('response', None)`; if `resp`
  is truthy its `status_code` is set to 403.

The embedding below is pure: the process environment, the remote service, the
wall clock and the shared cache are explicit parameters, and the outcome
records the returned value, the list of invocations of the wrapped function,
the number of network requests issued, the final cache and the final kwargs.
-/

namespace Toolbox

/-- The remote authorization service's response object (`aiohttp.ClientResponse`),
opaque to the gate: only `auth_check` inspects it. -/
structure Response where
  payload : Nat
deriving DecidableEq, Repr

/-- The mutable FastAPI response object found under the `response` keyword
argument; the gate only ever writes its `status_code`. -/
structure Carrier where
  status_code : Int
deriving DecidableEq, Repr

/-- `fastapi.status.HTTP_403_FORBIDDEN`. -/
def HTTP_403_FORBIDDEN : Int := 403

/-- Python values that can appear in the keyword arguments: strings (tokens),
the FastAPI response object, and `None`. -/
inductive PyVal where
  | vStr (s : String)
  | vCarrier (c : Carrier)
  | vNone
deriving DecidableEq, Repr

/-- Python truthiness of the values above: the empty string and `None` are
falsy; a response object is truthy (it defines neither bool nor len). -/
def PyVal.truthy : PyVal → Bool
  | .vStr s => !(s == "")
  | .vCarrier _ => true
  | .vNone => false

/-- Keyword arguments: a Python `dict` modelled as an association list
(keys unique by construction of the operations used). -/
abbrev Kwargs := List (String × PyVal)

/-- `kwargs.get(key, dflt)` (first match; dict keys are unique). -/
def kwget : Kwargs → String → PyVal → PyVal
  | [], _, dflt => dflt
  | (k, w) :: rest, key, dflt => if k == key then w else kwget rest key dflt

/-- In-place mutation of the object stored under `key` (the Python code never
adds keys; mutating the carrier object is modelled as replacing the entry). -/
def kwset : Kwargs → String → PyVal → Kwargs
  | [], key, v => [(key, v)]
  | (k, w) :: rest, key, v =>
    if k == key then (key, v) :: rest else (k, w) :: kwset rest key v

/-- A Python exception raised by user code (`auth_check`) or by the network
layer; `isKeyError` records whether it is a `KeyError`, the one class the
guard's `try`/`except` catches. -/
structure Exn where
  isKeyError : Bool
  tag : Nat
deriving DecidableEq, Repr

/-- The ways the guard itself can terminate exceptionally. -/
inductive Failure where
  | envValueError
  | missingEndpoint
  | network (e : Exn)
  | predicate (e : Exn)
deriving DecidableEq, Repr

/-- Positional arguments of the wrapped handler (opaque to the gate). -/
abbrev Args := List PyVal

/-- One entry of the module-level `TTLCache`: the raw response together with
its absolute expiration deadline (insertion time + ttl). -/
structure CacheEntry where
  expires : Nat
  value : Response
deriving DecidableEq, Repr

/-- The module-level `__cache = TTLCache(sys.maxsize, ttl=1200)`, keyed by the
access token.  `sys.maxsize` makes capacity eviction irrelevant. -/
abbrev Cache := List (PyVal × CacheEntry)

/-- `ttl=1200` seconds. -/
def cache_ttl : Nat := 1200

/-- `__cache[key]` at time `now`: cachetools raises `KeyError` (here: `none`)
when the key is absent or its entry has expired (valid iff `now < expires`). -/
def cacheGet : Cache → Nat → PyVal → Option Response
  | [], _, _ => none
  | (k, e) :: rest, now, key =>
    if k == key then (if now < e.expires then some e.value else none)
    else cacheGet rest now key

/-- `__cache[key] = v` at time `now`: stores `v` with deadline `now + ttl`. -/
def cacheSet (c : Cache) (now : Nat) (key : PyVal) (v : Response) : Cache :=
  (key, ⟨now + cache_ttl, v⟩) :: c.filter (fun p => !(p.1 == key))

instance {ε α : Type} [DecidableEq ε] [DecidableEq α] : DecidableEq (Except ε α) := fun x y =>
  match x, y with
  | Except.error a, Except.error b => decidable_of_iff (a = b) (by simp)
  | Except.error _, Except.ok _ => Decidable.isFalse (by simp)
  | Except.ok _, Except.error _ => Decidable.isFalse (by simp)
  | Except.ok a, Except.ok b => decidable_of_iff (a = b) (by simp)

/-- Everything one call of the guard does: the value it returns (or the
failure it raises), the invocations of the wrapped function with their
arguments, the number of network requests issued, and the final cache and
keyword arguments (the carrier lives inside the kwargs). -/
structure GuardOutcome (α : Type) where
  result : Except Failure (Option α)
  calls : List (Args × Kwargs)
  net : Nat
  cache : Cache
  kwargs : Kwargs
deriving DecidableEq, Repr

/-- `__forbid_access(kwargs)`: fetch `kwargs.get('response', None)` and, when
truthy, set its `status_code` to 403 (truthy values are carrier objects under
the decorator's documented contract). -/
def forbid_access (kwargs : Kwargs) : Kwargs :=
  let resp := kwget kwargs "response" PyVal.vNone
  if resp.truthy then
    match resp with
    | PyVal.vCarrier c =>
        kwset kwargs "response" (PyVal.vCarrier { c with status_code := HTTP_403_FORBIDDEN })
    | _ => kwargs
  else kwargs

/-- `int(s)` for a digit string (no sign handling needed beyond `+`/`-`):
`none` models the `ValueError` Python raises on a non-integer literal. -/
def digitsVal : List Char → Option Nat
  | [] => none
  | l => if l.all Char.isDigit
      then some (l.foldl (fun acc c => acc * 10 + (c.toNat - 48)) 0)
      else none

/-- Surrounding whitespace is ignored by Python's `int`. -/
def stripSpaces (l : List Char) : List Char :=
  ((l.dropWhile Char.isWhitespace).reverse.dropWhile Char.isWhitespace).reverse

/-- Python `int(s)` on a string: optional surrounding whitespace, optional
sign, decimal digits; anything else raises `ValueError` (modelled as `none`). -/
def pyInt (s : String) : Option Int :=
  match stripSpaces s.data with
  | '-' :: rest => (digitsVal rest).map (fun m => -(m : Int))
  | '+' :: rest => (digitsVal rest).map (fun m => (m : Int))
  | l => (digitsVal l).map (fun m => (m : Int))

/-- `int(os.environ.get('AUTH_ENABLED', 1))`: the default when the variable is
unset is the integer 1; a set value is parsed with `int` and may raise. -/
def auth_enabled_value (AUTH_ENABLED : Option String) : Option Int :=
  match AUTH_ENABLED with
  | none => some 1
  | some s => pyInt s

/-- The inner `next(response)` closure: evaluate `auth_check(response)`; on
`True` invoke the wrapped function with the original arguments and return its
value, on `False` forbid access and return `None`; an exception escapes.
Yields (returned value, invocations performed, resulting kwargs). -/
def next {α : Type} (auth_check : Response → Except Exn Bool)
    (func : Args → Kwargs → α) (args : Args) (kwargs : Kwargs)
    (response : Response) :
    Except Exn (Option α × List (Args × Kwargs) × Kwargs) :=
  match auth_check response with
  | Except.error e => Except.error e
  | Except.ok true => Except.ok (some (func args kwargs), [(args, kwargs)], kwargs)
  | Except.ok false => Except.ok (none, [], forbid_access kwargs)

/-- The cache-miss tail of the guard: read `os.environ['AUTH_ENDPOINT']`
(raising `KeyError` when unset), issue the HTTP GET (whose behaviour the
`service` parameter models), store the raw response in the cache under the
token, then evaluate `next(response)` — whose exceptions are no longer caught
here. -/
def missRequest {α : Type} (AUTH_ENDPOINT : Option String)
    (auth_check : Response → Except Exn Bool)
    (service : PyVal → Except Exn Response)
    (func : Args → Kwargs → α)
    (cache : Cache) (now : Nat) (args : Args) (kwargs : Kwargs)
    (access_token : PyVal) : GuardOutcome α :=
  match AUTH_ENDPOINT with
  | none => ⟨Except.error Failure.missingEndpoint, [], 0, cache, kwargs⟩
  | some _ =>
    match service access_token with
    | Except.error e => ⟨Except.error (Failure.network e), [], 1, cache, kwargs⟩
    | Except.ok response =>
      match next auth_check func args kwargs response with
      | Except.ok (r, cs, kw) =>
          ⟨Except.ok r, cs, 1, cacheSet cache now access_token response, kw⟩
      | Except.error e =>
          ⟨Except.error (Failure.predicate e), [], 1,
            cacheSet cache now access_token response, kwargs⟩

/-- The wrapper `authorization(func, instance, args, kwargs)` produced by
`with_authorization(auth_check)`, with the ambient state explicit:
the two environment variables, the remote service behaviour, the shared
cache and the current time. -/
def authorization {α : Type} (auth_check : Response → Except Exn Bool)
    (func : Args → Kwargs → α) (args : Args) (kwargs : Kwargs)
    (AUTH_ENABLED AUTH_ENDPOINT : Option String)
    (service : PyVal → Except Exn Response)
    (cache : Cache) (now : Nat) : GuardOutcome α :=
  match auth_enabled_value AUTH_ENABLED with
  | none => ⟨Except.error Failure.envValueError, [], 0, cache, kwargs⟩
  | some n =>
    if n = 0 then
      ⟨Except.ok (some (func args kwargs)), [(args, kwargs)], 0, cache, kwargs⟩
    else
      let access_token := kwget kwargs "access_token" (PyVal.vStr "")
      if access_token.truthy then
        match cacheGet cache now access_token with
        | some response =>
          match next auth_check func args kwargs response with
          | Except.ok (r, cs, kw) => ⟨Except.ok r, cs, 0, cache, kw⟩
          | Except.error e =>
            if e.isKeyError then
              missRequest AUTH_ENDPOINT auth_check service func cache now args kwargs access_token
            else
              ⟨Except.error (Failure.predicate e), [], 0, cache, kwargs⟩
        | none =>
          missRequest AUTH_ENDPOINT auth_check service func cache now args kwargs access_token
      else
        ⟨Except.ok none, [], 0, cache, forbid_access kwargs⟩

/-! ### Helper lemmas -/

theorem kwget_kwset_same (k : Kwargs) (key : String) (v d : PyVal) :
    kwget (kwset k key v) key d = v := by
  induction k with
  | nil => simp [kwset, kwget]
  | cons p rest ih =>
    rcases p with ⟨k1, w⟩
    by_cases h : k1 == key <;> simp [kwset, h, kwget, ih]

theorem kwget_absent (k : Kwargs) (key : String) (d : PyVal)
    (h : ∀ p ∈ k, p.1 ≠ key) : kwget k key d = d := by
  induction k with
  | nil => rfl
  | cons p rest ih =>
    have hp : (p.1 == key) = false := by
      simpa using h p (by simp)
    rcases p with ⟨k1, w⟩
    simp only [kwget, hp, if_false]
    exact ih (fun q hq => h q (by simp [hq]))

theorem forbid_access_carrier (kwargs : Kwargs) (c : Carrier)
    (h : kwget kwargs "response" PyVal.vNone = PyVal.vCarrier c) :
    forbid_access kwargs =
      kwset kwargs "response" (PyVal.vCarrier { c with status_code := HTTP_403_FORBIDDEN }) := by
  simp [forbid_access, h, PyVal.truthy]

theorem forbid_access_falsy (kwargs : Kwargs)
    (h : (kwget kwargs "response" PyVal.vNone).truthy = false) :
    forbid_access kwargs = kwargs := by
  simp [forbid_access, h]

theorem kwget_forbid_access_carrier (kwargs : Kwargs) (c : Carrier)
    (h : kwget kwargs "response" PyVal.vNone = PyVal.vCarrier c) :
    kwget (forbid_access kwargs) "response" PyVal.vNone
      = PyVal.vCarrier { c with status_code := HTTP_403_FORBIDDEN } := by
  rw [forbid_access_carrier kwargs c h, kwget_kwset_same]

theorem cacheGet_cacheSet_same (c : Cache) (ins t : Nat) (key : PyVal) (v : Response) :
    cacheGet (cacheSet c ins key v) t key =
      if t < ins + cache_ttl then some v else none := by
  simp [cacheSet, cacheGet]

/-! ### Claims -/

/-- C5: when authorization is disabled (`AUTH_ENABLED` parses to 0), the guard
invokes the protected operation exactly once with the original arguments and
returns its result, performs no cache interaction and no network call, and
leaves the status carrier (and all kwargs) unmodified — for every credential,
including the empty one, and every argument list. -/
theorem C5_disabled_bypass {α : Type} (s : String) (hs : pyInt s = some 0)
    (AUTH_ENDPOINT : Option String) (auth_check : Response → Except Exn Bool)
    (service : PyVal → Except Exn Response) (func : Args → Kwargs → α)
    (cache : Cache) (now : Nat) (args : Args) (kwargs : Kwargs) :
    authorization auth_check func args kwargs (some s) AUTH_ENDPOINT service cache now =
      ⟨Except.ok (some (func args kwargs)), [(args, kwargs)], 0, cache, kwargs⟩ := by
  simp [authorization, auth_enabled_value, hs]

theorem C5_disabled_bypass_witness :
    authorization (fun _ => Except.ok true) (fun _ _ => (7 : Nat)) []
        [("access_token", PyVal.vStr "")] (some "0") none
        (fun _ => Except.error ⟨false, 0⟩) [] 5 =
      ⟨Except.ok (some 7), [([], [("access_token", PyVal.vStr "")])], 0, [],
        [("access_token", PyVal.vStr "")]⟩ :=
  C5_disabled_bypass "0" (by decide) none (fun _ => Except.ok true)
    (fun _ => Except.error ⟨false, 0⟩) (fun _ _ => (7 : Nat)) [] 5 []
    [("access_token", PyVal.vStr "")]

/-- C4: while authorization is enabled, a guard call whose `access_token`
keyword argument is empty or absent never invokes the protected operation,
issues no network call, leaves the cache untouched, and sets the status
carrier's status code to 403 before returning `None`. -/
theorem C4_empty_credential_rejection {α : Type} (n : Int)
    (AUTH_ENABLED AUTH_ENDPOINT : Option String)
    (hE : auth_enabled_value AUTH_ENABLED = some n) (hn : n ≠ 0)
    (auth_check : Response → Except Exn Bool) (service : PyVal → Except Exn Response)
    (func : Args → Kwargs → α) (cache : Cache) (now : Nat)
    (args : Args) (kwargs : Kwargs) (c : Carrier)
    (htok : (kwget kwargs "access_token" (PyVal.vStr "")).truthy = false)
    (hcar : kwget kwargs "response" PyVal.vNone = PyVal.vCarrier c) :
    authorization auth_check func args kwargs AUTH_ENABLED AUTH_ENDPOINT service cache now =
      ⟨Except.ok none, [], 0, cache, forbid_access kwargs⟩ ∧
    kwget (forbid_access kwargs) "response" PyVal.vNone
      = PyVal.vCarrier { c with status_code := HTTP_403_FORBIDDEN } := by
  constructor
  · simp [authorization, hE, hn, htok]
  · exact kwget_forbid_access_carrier kwargs c hcar

theorem C4_empty_credential_rejection_witness :
    authorization (fun _ => Except.ok true) (fun _ _ => (7 : Nat)) []
        [("access_token", PyVal.vStr ""), ("response", PyVal.vCarrier ⟨200⟩)]
        none (some "u") (fun _ => Except.ok ⟨1⟩) [] 0 =
      ⟨Except.ok none, [], 0, [],
        forbid_access [("access_token", PyVal.vStr ""), ("response", PyVal.vCarrier ⟨200⟩)]⟩ ∧
    kwget (forbid_access
        [("access_token", PyVal.vStr ""), ("response", PyVal.vCarrier ⟨200⟩)])
        "response" PyVal.vNone = PyVal.vCarrier ⟨403⟩ :=
  C4_empty_credential_rejection 1 none (some "u") rfl (by decide)
    (fun _ => Except.ok true) (fun _ => Except.ok ⟨1⟩) (fun _ _ => (7 : Nat)) [] 0 []
    [("access_token", PyVal.vStr ""), ("response", PyVal.vCarrier ⟨200⟩)] ⟨200⟩
    (by decide) (by decide)

/-- C9: the credential is read exclusively from the keyword argument named
`access_token`: while enabled, a call whose kwargs contain no `access_token`
entry takes the missing-credential rejection path — even when the token sits
in the positional arguments or under another keyword name, and even when the
service and predicate would have authorized it. -/
theorem C9_token_only_from_kwarg {α : Type} (n : Int)
    (AUTH_ENABLED : Option String) (endpoint : String)
    (hE : auth_enabled_value AUTH_ENABLED = some n) (hn : n ≠ 0)
    (auth_check : Response → Except Exn Bool) (service : PyVal → Except Exn Response)
    (func : Args → Kwargs → α) (cache : Cache) (now : Nat)
    (tokstr : String) (r : Response) (args : Args) (kwargs : Kwargs)
    (hargs : PyVal.vStr tokstr ∈ args)
    (hnk : ∀ p ∈ kwargs, p.1 ≠ "access_token")
    (hsv : service (PyVal.vStr tokstr) = Except.ok r)
    (hac : auth_check r = Except.ok true) :
    authorization auth_check func args kwargs AUTH_ENABLED (some endpoint) service cache now =
      ⟨Except.ok none, [], 0, cache, forbid_access kwargs⟩ := by
  have htok : kwget kwargs "access_token" (PyVal.vStr "") = PyVal.vStr "" :=
    kwget_absent kwargs "access_token" (PyVal.vStr "") hnk
  simp [authorization, hE, hn, htok, PyVal.truthy]

theorem C9_token_only_from_kwarg_witness :
    authorization (fun _ => Except.ok true) (fun _ _ => (7 : Nat))
        [PyVal.vStr "tok-A"] [("token", PyVal.vStr "tok-A")] none (some "u")
        (fun _ => Except.ok ⟨1⟩) [] 0 =
      ⟨Except.ok none, [], 0, [], forbid_access [("token", PyVal.vStr "tok-A")]⟩ :=
  C9_token_only_from_kwarg 1 none "u" rfl (by decide) (fun _ => Except.ok true)
    (fun _ => Except.ok ⟨1⟩) (fun _ _ => (7 : Nat)) [] 0 "tok-A" ⟨1⟩
    [PyVal.vStr "tok-A"] [("token", PyVal.vStr "tok-A")] (by decide) (by decide)
    rfl rfl

/-- C1: while enabled and with a non-empty credential, once a validation
result is obtained (from the cache, or from the service on a miss), a
predicate verdict of `True` makes the guard invoke the protected operation
exactly once with the original arguments and return its value unchanged,
while a verdict of `False` makes it skip the operation, set the status
carrier to 403 and return `None`. -/
theorem C1_predicate_branching {α : Type} (n : Int)
    (AUTH_ENABLED AUTH_ENDPOINT : Option String)
    (hE : auth_enabled_value AUTH_ENABLED = some n) (hn : n ≠ 0)
    (auth_check : Response → Except Exn Bool) (service : PyVal → Except Exn Response)
    (func : Args → Kwargs → α) (cache : Cache) (now : Nat)
    (args : Args) (kwargs : Kwargs) (tok : PyVal) (r : Response) (c : Carrier)
    (htok : kwget kwargs "access_token" (PyVal.vStr "") = tok)
    (htru : tok.truthy = true)
    (hcar : kwget kwargs "response" PyVal.vNone = PyVal.vCarrier c)
    (hr : cacheGet cache now tok = some r ∨
      (cacheGet cache now tok = none ∧ (∃ u, AUTH_ENDPOINT = some u) ∧
        service tok = Except.ok r)) :
    (auth_check r = Except.ok true →
      (authorization auth_check func args kwargs AUTH_ENABLED AUTH_ENDPOINT service cache now).result
          = Except.ok (some (func args kwargs)) ∧
      (authorization auth_check func args kwargs AUTH_ENABLED AUTH_ENDPOINT service cache now).calls
          = [(args, kwargs)]) ∧
    (auth_check r = Except.ok false →
      (authorization auth_check func args kwargs AUTH_ENABLED AUTH_ENDPOINT service cache now).result
          = Except.ok none ∧
      (authorization auth_check func args kwargs AUTH_ENABLED AUTH_ENDPOINT service cache now).calls
          = [] ∧
      kwget (authorization auth_check func args kwargs AUTH_ENABLED AUTH_ENDPOINT service cache now).kwargs
          "response" PyVal.vNone
          = PyVal.vCarrier { c with status_code := HTTP_403_FORBIDDEN }) := by
  rcases hr with hhit | ⟨hmiss, ⟨u, hu⟩, hsv⟩
  · constructor
    · intro hac
      simp [authorization, hE, hn, htok, htru, hhit, next, hac]
    · intro hac
      refine ⟨?_, ?_, ?_⟩ <;>
        simp [authorization, hE, hn, htok, htru, hhit, next, hac,
          kwget_forbid_access_carrier kwargs c hcar]
  · constructor
    · intro hac
      simp [authorization, hE, hn, htok, htru, hmiss, hu, missRequest, next, hsv, hac]
    · intro hac
      refine ⟨?_, ?_, ?_⟩ <;>
        simp [authorization, hE, hn, htok, htru, hmiss, hu, missRequest, next, hsv, hac,
          kwget_forbid_access_carrier kwargs c hcar]

theorem C1_predicate_branching_witness :
    ((fun r => Except.ok (r.payload == 1) : Response → Except Exn Bool) ⟨1⟩
        = Except.ok true →
      (authorization (fun r => Except.ok (r.payload == 1)) (fun _ _ => (7 : Nat)) []
          [("access_token", PyVal.vStr "tok-A"), ("response", PyVal.vCarrier ⟨200⟩)]
          none (some "u") (fun _ => Except.ok ⟨1⟩) [] 0).result
          = Except.ok (some 7) ∧
      (authorization (fun r => Except.ok (r.payload == 1)) (fun _ _ => (7 : Nat)) []
          [("access_token", PyVal.vStr "tok-A"), ("response", PyVal.vCarrier ⟨200⟩)]
          none (some "u") (fun _ => Except.ok ⟨1⟩) [] 0).calls
          = [([], [("access_token", PyVal.vStr "tok-A"), ("response", PyVal.vCarrier ⟨200⟩)])]) ∧
    ((fun r => Except.ok (r.payload == 1) : Response → Except Exn Bool) ⟨1⟩
        = Except.ok false →
      (authorization (fun r => Except.ok (r.payload == 1)) (fun _ _ => (7 : Nat)) []
          [("access_token", PyVal.vStr "tok-A"), ("response", PyVal.vCarrier ⟨200⟩)]
          none (some "u") (fun _ => Except.ok ⟨1⟩) [] 0).result
          = Except.ok none ∧
      (authorization (fun r => Except.ok (r.payload == 1)) (fun _ _ => (7 : Nat)) []
          [("access_token", PyVal.vStr "tok-A"), ("response", PyVal.vCarrier ⟨200⟩)]
          none (some "u") (fun _ => Except.ok ⟨1⟩) [] 0).calls
          = [] ∧
      kwget (authorization (fun r => Except.ok (r.payload == 1)) (fun _ _ => (7 : Nat)) []
          [("access_token", PyVal.vStr "tok-A"), ("response", PyVal.vCarrier ⟨200⟩)]
          none (some "u") (fun _ => Except.ok ⟨1⟩) [] 0).kwargs
          "response" PyVal.vNone = PyVal.vCarrier ⟨403⟩) :=
  C1_predicate_branching 1 none (some "u") rfl (by decide)
    (fun r => Except.ok (r.payload == 1)) (fun _ => Except.ok ⟨1⟩)
    (fun _ _ => (7 : Nat)) [] 0 []
    [("access_token", PyVal.vStr "tok-A"), ("response", PyVal.vCarrier ⟨200⟩)]
    (PyVal.vStr "tok-A") ⟨1⟩ ⟨200⟩ (by decide) (by decide) (by decide)
    (Or.inr ⟨rfl, ⟨"u", rfl⟩, rfl⟩)

/-- C2: while enabled with a non-empty credential, the first call with a
fresh credential issues exactly one network request and stores the response
in the cache; a repeat call with the same credential within the 1200 s TTL
issues zero network requests and decides from the cached result; a call after
the deadline misses the cache and issues a fresh network request. -/
theorem C2_cache_population_and_expiry {α : Type} (n : Int)
    (AUTH_ENABLED : Option String) (u : String)
    (hE : auth_enabled_value AUTH_ENABLED = some n) (hn : n ≠ 0)
    (auth_check : Response → Except Exn Bool) (service : PyVal → Except Exn Response)
    (func : Args → Kwargs → α) (cache : Cache) (t0 t1 t2 : Nat)
    (args : Args) (kwargs : Kwargs) (tok : PyVal) (r : Response) (b : Bool)
    (htok : kwget kwargs "access_token" (PyVal.vStr "") = tok)
    (htru : tok.truthy = true)
    (hmiss : cacheGet cache t0 tok = none)
    (hsv : service tok = Except.ok r)
    (hac : auth_check r = Except.ok b)
    (ht1 : t1 < t0 + cache_ttl)
    (ht2 : t0 + cache_ttl ≤ t2) :
    (authorization auth_check func args kwargs AUTH_ENABLED (some u) service cache t0).net = 1 ∧
    cacheGet
      (authorization auth_check func args kwargs AUTH_ENABLED (some u) service cache t0).cache
      t1 tok = some r ∧
    (authorization auth_check func args kwargs AUTH_ENABLED (some u) service
      (authorization auth_check func args kwargs AUTH_ENABLED (some u) service cache t0).cache
      t1).net = 0 ∧
    (authorization auth_check func args kwargs AUTH_ENABLED (some u) service
      (authorization auth_check func args kwargs AUTH_ENABLED (some u) service cache t0).cache
      t1).result = Except.ok (if b then some (func args kwargs) else none) ∧
    (authorization auth_check func args kwargs AUTH_ENABLED (some u) service
      (authorization auth_check func args kwargs AUTH_ENABLED (some u) service cache t0).cache
      t2).net = 1 := by
  have hfc : (authorization auth_check func args kwargs AUTH_ENABLED (some u) service cache t0).cache
      = cacheSet cache t0 tok r := by
    cases b <;>
      simp [authorization, hE, hn, htok, htru, hmiss, missRequest, next, hsv, hac]
  have hhit : cacheGet (cacheSet cache t0 tok r) t1 tok = some r := by
    rw [cacheGet_cacheSet_same]; simp [ht1]
  have hexp : cacheGet (cacheSet cache t0 tok r) t2 tok = none := by
    rw [cacheGet_cacheSet_same]; simp [Nat.not_lt.mpr ht2]
  refine ⟨?_, ?_, ?_, ?_, ?_⟩
  · cases b <;>
      simp [authorization, hE, hn, htok, htru, hmiss, missRequest, next, hsv, hac]
  · rw [hfc]; exact hhit
  · rw [hfc]
    cases b <;> simp [authorization, hE, hn, htok, htru, hhit, next, hac]
  · rw [hfc]
    cases b <;> simp [authorization, hE, hn, htok, htru, hhit, next, hac]
  · rw [hfc]
    cases b <;>
      simp [authorization, hE, hn, htok, htru, hexp, missRequest, next, hsv, hac]

theorem C2_cache_population_and_expiry_witness :
    (authorization (fun r => Except.ok (r.payload == 1)) (fun _ _ => (7 : Nat)) []
      [("access_token", PyVal.vStr "tok-A")] none (some "u")
      (fun _ => Except.ok ⟨1⟩) [] 0).net = 1 ∧
    cacheGet
      (authorization (fun r => Except.ok (r.payload == 1)) (fun _ _ => (7 : Nat)) []
        [("access_token", PyVal.vStr "tok-A")] none (some "u")
        (fun _ => Except.ok ⟨1⟩) [] 0).cache 100 (PyVal.vStr "tok-A") = some ⟨1⟩ ∧
    (authorization (fun r => Except.ok (r.payload == 1)) (fun _ _ => (7 : Nat)) []
      [("access_token", PyVal.vStr "tok-A")] none (some "u") (fun _ => Except.ok ⟨1⟩)
      (authorization (fun r => Except.ok (r.payload == 1)) (fun _ _ => (7 : Nat)) []
        [("access_token", PyVal.vStr "tok-A")] none (some "u")
        (fun _ => Except.ok ⟨1⟩) [] 0).cache 100).net = 0 ∧
    (authorization (fun r => Except.ok (r.payload == 1)) (fun _ _ => (7 : Nat)) []
      [("access_token", PyVal.vStr "tok-A")] none (some "u") (fun _ => Except.ok ⟨1⟩)
      (authorization (fun r => Except.ok (r.payload == 1)) (fun _ _ => (7 : Nat)) []
        [("access_token", PyVal.vStr "tok-A")] none (some "u")
        (fun _ => Except.ok ⟨1⟩) [] 0).cache 100).result
      = Except.ok (if true then some 7 else none) ∧
    (authorization (fun r => Except.ok (r.payload == 1)) (fun _ _ => (7 : Nat)) []
      [("access_token", PyVal.vStr "tok-A")] none (some "u") (fun _ => Except.ok ⟨1⟩)
      (authorization (fun r => Except.ok (r.payload == 1)) (fun _ _ => (7 : Nat)) []
        [("access_token", PyVal.vStr "tok-A")] none (some "u")
        (fun _ => Except.ok ⟨1⟩) [] 0).cache 1201).net = 1 :=
  C2_cache_population_and_expiry 1 none "u" rfl (by decide)
    (fun r => Except.ok (r.payload == 1)) (fun _ => Except.ok ⟨1⟩)
    (fun _ _ => (7 : Nat)) [] 0 100 1201 [] [("access_token", PyVal.vStr "tok-A")]
    (PyVal.vStr "tok-A") ⟨1⟩ true (by decide) (by decide) rfl rfl rfl
    (by decide) (by decide)

/-- C3: on a cache miss the raw response is stored under the credential with
a fresh deadline regardless of the predicate's verdict: a rejected credential
is cached like an accepted one, and a repeat call within the TTL issues zero
network requests yet yields forbidden status both times. -/
theorem C3_negative_result_caching {α : Type} (n : Int)
    (AUTH_ENABLED : Option String) (u : String)
    (hE : auth_enabled_value AUTH_ENABLED = some n) (hn : n ≠ 0)
    (auth_check : Response → Except Exn Bool) (service : PyVal → Except Exn Response)
    (func : Args → Kwargs → α) (cache : Cache) (t0 t1 : Nat)
    (args : Args) (kwargs : Kwargs) (tok : PyVal) (r : Response) (c : Carrier)
    (htok : kwget kwargs "access_token" (PyVal.vStr "") = tok)
    (htru : tok.truthy = true)
    (hcar : kwget kwargs "response" PyVal.vNone = PyVal.vCarrier c)
    (hmiss : cacheGet cache t0 tok = none)
    (hsv : service tok = Except.ok r)
    (hac : auth_check r = Except.ok false)
    (ht1 : t1 < t0 + cache_ttl) :
    authorization auth_check func args kwargs AUTH_ENABLED (some u) service cache t0 =
      ⟨Except.ok none, [], 1, cacheSet cache t0 tok r, forbid_access kwargs⟩ ∧
    cacheGet (cacheSet cache t0 tok r) t1 tok = some r ∧
    authorization auth_check func args kwargs AUTH_ENABLED (some u) service
        (cacheSet cache t0 tok r) t1 =
      ⟨Except.ok none, [], 0, cacheSet cache t0 tok r, forbid_access kwargs⟩ ∧
    kwget (forbid_access kwargs) "response" PyVal.vNone
      = PyVal.vCarrier { c with status_code := HTTP_403_FORBIDDEN } := by
  have hhit : cacheGet (cacheSet cache t0 tok r) t1 tok = some r := by
    rw [cacheGet_cacheSet_same]; simp [ht1]
  refine ⟨?_, hhit, ?_, kwget_forbid_access_carrier kwargs c hcar⟩
  · simp [authorization, hE, hn, htok, htru, hmiss, missRequest, next, hsv, hac]
  · simp [authorization, hE, hn, htok, htru, hhit, next, hac]

theorem C3_negative_result_caching_witness :
    authorization (fun r => Except.ok (r.payload == 1)) (fun _ _ => (7 : Nat)) []
      [("access_token", PyVal.vStr "tok-B"), ("response", PyVal.vCarrier ⟨200⟩)]
      none (some "u") (fun _ => Except.ok ⟨0⟩) [] 0 =
      ⟨Except.ok none, [], 1, cacheSet [] 0 (PyVal.vStr "tok-B") ⟨0⟩,
        forbid_access
          [("access_token", PyVal.vStr "tok-B"), ("response", PyVal.vCarrier ⟨200⟩)]⟩ ∧
    cacheGet (cacheSet [] 0 (PyVal.vStr "tok-B") ⟨0⟩) 100 (PyVal.vStr "tok-B")
      = some ⟨0⟩ ∧
    authorization (fun r => Except.ok (r.payload == 1)) (fun _ _ => (7 : Nat)) []
      [("access_token", PyVal.vStr "tok-B"), ("response", PyVal.vCarrier ⟨200⟩)]
      none (some "u") (fun _ => Except.ok ⟨0⟩)
      (cacheSet [] 0 (PyVal.vStr "tok-B") ⟨0⟩) 100 =
      ⟨Except.ok none, [], 0, cacheSet [] 0 (PyVal.vStr "tok-B") ⟨0⟩,
        forbid_access
          [("access_token", PyVal.vStr "tok-B"), ("response", PyVal.vCarrier ⟨200⟩)]⟩ ∧
    kwget (forbid_access
        [("access_token", PyVal.vStr "tok-B"), ("response", PyVal.vCarrier ⟨200⟩)])
      "response" PyVal.vNone = PyVal.vCarrier ⟨403⟩ :=
  C3_negative_result_caching 1 none "u" rfl (by decide)
    (fun r => Except.ok (r.payload == 1)) (fun _ => Except.ok ⟨0⟩)
    (fun _ _ => (7 : Nat)) [] 0 100 []
    [("access_token", PyVal.vStr "tok-B"), ("response", PyVal.vCarrier ⟨200⟩)]
    (PyVal.vStr "tok-B") ⟨0⟩ ⟨200⟩ (by decide) (by decide) (by decide) rfl rfl rfl
    (by decide)

/-- C6: while enabled with a non-empty credential, on a cache miss a missing
`AUTH_ENDPOINT` or a failing network call propagates as a failure out of the
guard: the protected operation is not invoked, no retry is attempted (at most
the one attempted request), and the status carrier / kwargs and cache are
left unmodified. -/
theorem C6_infrastructure_failure_propagates {α : Type} (n : Int)
    (AUTH_ENABLED AUTH_ENDPOINT : Option String)
    (hE : auth_enabled_value AUTH_ENABLED = some n) (hn : n ≠ 0)
    (auth_check : Response → Except Exn Bool) (service : PyVal → Except Exn Response)
    (func : Args → Kwargs → α) (cache : Cache) (now : Nat)
    (args : Args) (kwargs : Kwargs) (tok : PyVal)
    (htok : kwget kwargs "access_token" (PyVal.vStr "") = tok)
    (htru : tok.truthy = true)
    (hmiss : cacheGet cache now tok = none) :
    (AUTH_ENDPOINT = none →
      authorization auth_check func args kwargs AUTH_ENABLED AUTH_ENDPOINT service cache now
        = ⟨Except.error Failure.missingEndpoint, [], 0, cache, kwargs⟩) ∧
    (∀ u e, AUTH_ENDPOINT = some u → service tok = Except.error e →
      authorization auth_check func args kwargs AUTH_ENABLED AUTH_ENDPOINT service cache now
        = ⟨Except.error (Failure.network e), [], 1, cache, kwargs⟩) := by
  constructor
  · intro hu
    subst hu
    simp [authorization, hE, hn, htok, htru, hmiss, missRequest]
  · intro u e hu hsv
    subst hu
    simp [authorization, hE, hn, htok, htru, hmiss, missRequest, hsv]

theorem C6_infrastructure_failure_propagates_witness :
    ((some "u" : Option String) = none →
      authorization (fun _ => Except.ok true) (fun _ _ => (7 : Nat)) []
        [("access_token", PyVal.vStr "t")] none (some "u")
        (fun _ => Except.error ⟨false, 3⟩) [] 0
        = ⟨Except.error Failure.missingEndpoint, [], 0, [],
            [("access_token", PyVal.vStr "t")]⟩) ∧
    (∀ u e, (some "u" : Option String) = some u →
      (fun _ => Except.error ⟨false, 3⟩ : PyVal → Except Exn Response) (PyVal.vStr "t")
        = Except.error e →
      authorization (fun _ => Except.ok true) (fun _ _ => (7 : Nat)) []
        [("access_token", PyVal.vStr "t")] none (some "u")
        (fun _ => Except.error ⟨false, 3⟩) [] 0
        = ⟨Except.error (Failure.network e), [], 1, [],
            [("access_token", PyVal.vStr "t")]⟩) :=
  C6_infrastructure_failure_propagates 1 none (some "u") rfl (by decide)
    (fun _ => Except.ok true) (fun _ => Except.error ⟨false, 3⟩)
    (fun _ _ => (7 : Nat)) [] 0 [] [("access_token", PyVal.vStr "t")]
    (PyVal.vStr "t") (by decide) (by decide) rfl

/-- C7 counterexample: the claim "a predicate exception is not caught by
guard and propagates" is false as stated.  With a valid cache entry for the
token whose response makes `auth_check` raise a `KeyError`, the guard's
`except KeyError` (meant for the cache lookup) catches the predicate's
exception, issues a fresh network request, and — the new response being
accepted — invokes the protected operation and returns its value: nothing
propagates. -/
theorem C7_counterexample :
    (fun r => if r.payload == 0 then Except.error ⟨true, 5⟩ else Except.ok true :
        Response → Except Exn Bool) ⟨0⟩ = Except.error ⟨true, 5⟩ ∧
    cacheGet [(PyVal.vStr "t", ⟨100, ⟨0⟩⟩)] 0 (PyVal.vStr "t") = some ⟨0⟩ ∧
    authorization
      (fun r => if r.payload == 0 then Except.error ⟨true, 5⟩ else Except.ok true)
      (fun _ _ => (7 : Nat)) [] [("access_token", PyVal.vStr "t")] none (some "u")
      (fun _ => Except.ok ⟨1⟩) [(PyVal.vStr "t", ⟨100, ⟨0⟩⟩)] 0 =
      ⟨Except.ok (some 7), [([], [("access_token", PyVal.vStr "t")])], 1,
        cacheSet [(PyVal.vStr "t", ⟨100, ⟨0⟩⟩)] 0 (PyVal.vStr "t") ⟨1⟩,
        [("access_token", PyVal.vStr "t")]⟩ := by
  refine ⟨rfl, rfl, ?_⟩
  decide

/-- C7 (amended): while enabled with a non-empty credential, an exception
raised by the predicate propagates out of the guard, with one exception: a
`KeyError` raised on the cache-hit path is caught by the guard's cache-miss
handler, which then falls through to a fresh network request.  A non-KeyError
exception on the hit path, and any predicate exception on the miss path,
propagate uncaught. -/
theorem C7_predicate_exception_propagation {α : Type} (n : Int)
    (AUTH_ENABLED AUTH_ENDPOINT : Option String)
    (hE : auth_enabled_value AUTH_ENABLED = some n) (hn : n ≠ 0)
    (auth_check : Response → Except Exn Bool) (service : PyVal → Except Exn Response)
    (func : Args → Kwargs → α) (cache : Cache) (now : Nat)
    (args : Args) (kwargs : Kwargs) (tok : PyVal) (r : Response) (e : Exn)
    (htok : kwget kwargs "access_token" (PyVal.vStr "") = tok)
    (htru : tok.truthy = true)
    (hac : auth_check r = Except.error e) :
    (cacheGet cache now tok = some r → e.isKeyError = false →
      authorization auth_check func args kwargs AUTH_ENABLED AUTH_ENDPOINT service cache now
        = ⟨Except.error (Failure.predicate e), [], 0, cache, kwargs⟩) ∧
    (cacheGet cache now tok = some r → e.isKeyError = true →
      authorization auth_check func args kwargs AUTH_ENABLED AUTH_ENDPOINT service cache now
        = missRequest AUTH_ENDPOINT auth_check service func cache now args kwargs tok) ∧
    (∀ u, cacheGet cache now tok = none → AUTH_ENDPOINT = some u →
      service tok = Except.ok r →
      authorization auth_check func args kwargs AUTH_ENABLED AUTH_ENDPOINT service cache now
        = ⟨Except.error (Failure.predicate e), [], 1, cacheSet cache now tok r, kwargs⟩) := by
  refine ⟨?_, ?_, ?_⟩
  · intro hhit hke
    simp [authorization, hE, hn, htok, htru, hhit, next, hac, hke]
  · intro hhit hke
    simp [authorization, hE, hn, htok, htru, hhit, next, hac, hke]
  · intro u hmiss hu hsv
    subst hu
    simp [authorization, hE, hn, htok, htru, hmiss, missRequest, next, hsv, hac]

theorem C7_predicate_exception_propagation_witness :
    (cacheGet [] 0 (PyVal.vStr "t") = some ⟨1⟩ → (⟨false, 9⟩ : Exn).isKeyError = false →
      authorization (fun _ => Except.error ⟨false, 9⟩) (fun _ _ => (7 : Nat)) []
        [("access_token", PyVal.vStr "t")] none (some "u")
        (fun _ => Except.ok ⟨1⟩) [] 0
        = ⟨Except.error (Failure.predicate ⟨false, 9⟩), [], 0, [],
            [("access_token", PyVal.vStr "t")]⟩) ∧
    (cacheGet [] 0 (PyVal.vStr "t") = some ⟨1⟩ → (⟨false, 9⟩ : Exn).isKeyError = true →
      authorization (fun _ => Except.error ⟨false, 9⟩) (fun _ _ => (7 : Nat)) []
        [("access_token", PyVal.vStr "t")] none (some "u")
        (fun _ => Except.ok ⟨1⟩) [] 0
        = missRequest (some "u") (fun _ => Except.error ⟨false, 9⟩)
            (fun _ => Except.ok ⟨1⟩) (fun _ _ => (7 : Nat)) [] 0 []
            [("access_token", PyVal.vStr "t")] (PyVal.vStr "t")) ∧
    (∀ u, cacheGet [] 0 (PyVal.vStr "t") = none → (some "u" : Option String) = some u →
      (fun _ => Except.ok ⟨1⟩ : PyVal → Except Exn Response) (PyVal.vStr "t")
        = Except.ok ⟨1⟩ →
      authorization (fun _ => Except.error ⟨false, 9⟩) (fun _ _ => (7 : Nat)) []
        [("access_token", PyVal.vStr "t")] none (some "u")
        (fun _ => Except.ok ⟨1⟩) [] 0
        = ⟨Except.error (Failure.predicate ⟨false, 9⟩), [], 1,
            cacheSet [] 0 (PyVal.vStr "t") ⟨1⟩,
            [("access_token", PyVal.vStr "t")]⟩) :=
  C7_predicate_exception_propagation 1 none (some "u") rfl (by decide)
    (fun _ => Except.error ⟨false, 9⟩) (fun _ => Except.ok ⟨1⟩)
    (fun _ _ => (7 : Nat)) [] 0 [] [("access_token", PyVal.vStr "t")]
    (PyVal.vStr "t") ⟨1⟩ ⟨false, 9⟩ (by decide) (by decide) rfl

/-- C8 counterexample: the claim "for every truthy or falsy value of
`AUTH_ENABLED`, guard evaluates it without error" is false.  The empty string
is a falsy value, yet `int('')` raises `ValueError`, so the guard call fails
instead of acting as the no-op pass-through. -/
theorem C8_counterexample :
    PyVal.truthy (PyVal.vStr "") = false ∧
    pyInt "" = none ∧
    (authorization (fun _ => Except.ok true) (fun _ _ => (7 : Nat)) []
        [("access_token", PyVal.vStr "t")] (some "") (some "u")
        (fun _ => Except.ok ⟨1⟩) [] 0).result
      = Except.error Failure.envValueError := by
  refine ⟨rfl, rfl, ?_⟩
  decide

/-- C8 (amended): `AUTH_ENABLED` is parsed with Python `int()`.  For every
value that parses as a decimal integer the guard evaluates it without error
and behaves as the no-op pass-through exactly when that integer is 0; when
the variable is unset the default is 1, i.e. authorization is enabled.
(A non-integer value — including the falsy empty string — raises
`ValueError` instead.) -/
theorem C8_auth_enabled_parsing {α : Type} (s : String) (m : Int)
    (hs : pyInt s = some m)
    (AUTH_ENDPOINT : Option String) (auth_check : Response → Except Exn Bool)
    (service : PyVal → Except Exn Response) (func : Args → Kwargs → α)
    (cache : Cache) (now : Nat) (args : Args) (kwargs : Kwargs) :
    (m = 0 →
      authorization auth_check func args kwargs (some s) AUTH_ENDPOINT service cache now
        = ⟨Except.ok (some (func args kwargs)), [(args, kwargs)], 0, cache, kwargs⟩) ∧
    (m ≠ 0 → (kwget kwargs "access_token" (PyVal.vStr "")).truthy = false →
      authorization auth_check func args kwargs (some s) AUTH_ENDPOINT service cache now
        = ⟨Except.ok none, [], 0, cache, forbid_access kwargs⟩) ∧
    ((kwget kwargs "access_token" (PyVal.vStr "")).truthy = false →
      authorization auth_check func args kwargs none AUTH_ENDPOINT service cache now
        = ⟨Except.ok none, [], 0, cache, forbid_access kwargs⟩) := by
  refine ⟨?_, ?_, ?_⟩
  · intro hm
    subst hm
    simp [authorization, auth_enabled_value, hs]
  · intro hm htok
    simp [authorization, auth_enabled_value, hs, hm, htok]
  · intro htok
    simp [authorization, auth_enabled_value, htok]

theorem C8_auth_enabled_parsing_witness :
    ((0 : Int) = 0 →
      authorization (fun _ => Except.ok true) (fun _ _ => (7 : Nat)) [] []
          (some "0") none (fun _ => Except.ok ⟨1⟩) [] 0
        = ⟨Except.ok (some 7), [([], [])], 0, [], []⟩) ∧
    ((0 : Int) ≠ 0 → (kwget [] "access_token" (PyVal.vStr "")).truthy = false →
      authorization (fun _ => Except.ok true) (fun _ _ => (7 : Nat)) [] []
          (some "0") none (fun _ => Except.ok ⟨1⟩) [] 0
        = ⟨Except.ok none, [], 0, [], forbid_access []⟩) ∧
    ((kwget [] "access_token" (PyVal.vStr "")).truthy = false →
      authorization (fun _ => Except.ok true) (fun _ _ => (7 : Nat)) [] []
          none none (fun _ => Except.ok ⟨1⟩) [] 0
        = ⟨Except.ok none, [], 0, [], forbid_access []⟩) :=
  C8_auth_enabled_parsing "0" 0 (by decide) none (fun _ => Except.ok true)
    (fun _ => Except.ok ⟨1⟩) (fun _ _ => (7 : Nat)) [] 0 [] []

/-- C10 counterexample: the claim "on a rejection with no (or falsy)
`response` entry, guard completes without mutating any state" is false as
stated: on a cache-miss rejection the shared cache is still mutated — the
rejected credential's response is inserted.  Here the kwargs hold no
`response` entry, the predicate rejects, guard completes returning `None`,
and the cache has gained an entry. -/
theorem C10_counterexample :
    kwget [("access_token", PyVal.vStr "t")] "response" PyVal.vNone = PyVal.vNone ∧
    (authorization (fun _ => Except.ok false) (fun _ _ => (7 : Nat)) []
        [("access_token", PyVal.vStr "t")] none (some "u")
        (fun _ => Except.ok ⟨0⟩) [] 0).result = Except.ok none ∧
    (authorization (fun _ => Except.ok false) (fun _ _ => (7 : Nat)) []
        [("access_token", PyVal.vStr "t")] none (some "u")
        (fun _ => Except.ok ⟨0⟩) [] 0).cache ≠ [] := by
  refine ⟨rfl, ?_, ?_⟩ <;> decide

/-- C10 (amended): on every rejection path (missing credential, or predicate
false on a hit or a miss), when the kwargs contain no `response` entry or a
falsy one, the guard completes without raising, returns `None`, and leaves
the kwargs unmodified — the forbidden-status write is silently skipped; the
cache, however, is still populated on a cache-miss rejection. -/
theorem C10_falsy_carrier_skips_forbid {α : Type} (n : Int)
    (AUTH_ENABLED AUTH_ENDPOINT : Option String)
    (hE : auth_enabled_value AUTH_ENABLED = some n) (hn : n ≠ 0)
    (auth_check : Response → Except Exn Bool) (service : PyVal → Except Exn Response)
    (func : Args → Kwargs → α) (cache : Cache) (now : Nat)
    (args : Args) (kwargs : Kwargs)
    (hfal : (kwget kwargs "response" PyVal.vNone).truthy = false) :
    ((kwget kwargs "access_token" (PyVal.vStr "")).truthy = false →
      authorization auth_check func args kwargs AUTH_ENABLED AUTH_ENDPOINT service cache now
        = ⟨Except.ok none, [], 0, cache, kwargs⟩) ∧
    (∀ tok r, kwget kwargs "access_token" (PyVal.vStr "") = tok → tok.truthy = true →
      cacheGet cache now tok = some r → auth_check r = Except.ok false →
      authorization auth_check func args kwargs AUTH_ENABLED AUTH_ENDPOINT service cache now
        = ⟨Except.ok none, [], 0, cache, kwargs⟩) ∧
    (∀ tok r u, kwget kwargs "access_token" (PyVal.vStr "") = tok → tok.truthy = true →
      cacheGet cache now tok = none → AUTH_ENDPOINT = some u →
      service tok = Except.ok r → auth_check r = Except.ok false →
      authorization auth_check func args kwargs AUTH_ENABLED AUTH_ENDPOINT service cache now
        = ⟨Except.ok none, [], 1, cacheSet cache now tok r, kwargs⟩) := by
  have hforb : forbid_access kwargs = kwargs := forbid_access_falsy kwargs hfal
  refine ⟨?_, ?_, ?_⟩
  · intro htok
    simp [authorization, hE, hn, htok, hforb]
  · intro tok r htok htru hhit hac
    simp [authorization, hE, hn, htok, htru, hhit, next, hac, hforb]
  · intro tok r u htok htru hmiss hu hsv hac
    subst hu
    simp [authorization, hE, hn, htok, htru, hmiss, missRequest, next, hsv, hac, hforb]

theorem C10_falsy_carrier_skips_forbid_witness :
    ((kwget [("access_token", PyVal.vStr "t")] "access_token" (PyVal.vStr "")).truthy
        = false →
      authorization (fun _ => Except.ok false) (fun _ _ => (7 : Nat)) []
          [("access_token", PyVal.vStr "t")] none (some "u")
          (fun _ => Except.ok ⟨0⟩) [] 0
        = ⟨Except.ok none, [], 0, [], [("access_token", PyVal.vStr "t")]⟩) ∧
    (∀ tok r, kwget [("access_token", PyVal.vStr "t")] "access_token" (PyVal.vStr "") = tok →
      tok.truthy = true → cacheGet [] 0 tok = some r →
      (fun _ => Except.ok false : Response → Except Exn Bool) r = Except.ok false →
      authorization (fun _ => Except.ok false) (fun _ _ => (7 : Nat)) []
          [("access_token", PyVal.vStr "t")] none (some "u")
          (fun _ => Except.ok ⟨0⟩) [] 0
        = ⟨Except.ok none, [], 0, [], [("access_token", PyVal.vStr "t")]⟩) ∧
    (∀ tok r u, kwget [("access_token", PyVal.vStr "t")] "access_token" (PyVal.vStr "") = tok →
      tok.truthy = true → cacheGet [] 0 tok = none →
      (some "u" : Option String) = some u →
      (fun _ => Except.ok ⟨0⟩ : PyVal → Except Exn Response) tok = Except.ok r →
      (fun _ => Except.ok false : Response → Except Exn Bool) r = Except.ok false →
      authorization (fun _ => Except.ok false) (fun _ _ => (7 : Nat)) []
          [("access_token", PyVal.vStr "t")] none (some "u")
          (fun _ => Except.ok ⟨0⟩) [] 0
        = ⟨Except.ok none, [], 1, cacheSet [] 0 tok r, [("access_token", PyVal.vStr "t")]⟩) :=
  C10_falsy_carrier_skips_forbid 1 none (some "u") rfl (by decide)
    (fun _ => Except.ok false) (fun _ => Except.ok ⟨0⟩) (fun _ _ => (7 : Nat))
    [] 0 [] [("access_token", PyVal.vStr "t")] (by decide)

end Toolbox
